import Mathlib

/-!
Verification of the multi-tenancy core of the awning-backend service: the
tenant-scoped unit-of-work, tenant resolution middleware, JWT validation, and
the user/tenant onboarding workflow, shallowly embedded from the Go source.
-/

namespace Awning

/-! Namespace store and tenant-scoped unit of work (src/db/db.go). -/

/-- Modelled from the spec: the schema-per-tenant namespace store is implemented by
the external gorm-multitenancy library, which is not part of this repository's
source; `WithTenant` in src/db/db.go only delegates to it.  A namespace state maps
a tenant identifier and a key to an optional stored row; distinct tenant
identifiers key physically separate namespaces. -/
def NamespaceState : Type := String → String → Option String

/-- Modelled from the spec: a scoped database handle is bound to exactly one
tenant namespace for the duration of a callback. -/
structure ScopedHandle where
  tenant : String

/-- Modelled from the spec: `WithTenant tenantID fn` (src/db/db.go) executes `fn`
with a handle bound to `tenantID`'s namespace. -/
def withTenant (tenantID : String) (fn : ScopedHandle → α) : α :=
  fn { tenant := tenantID }

/-- Modelled from the spec: a read through a scoped handle is routed to the
handle's namespace only. -/
def handleRead (s : NamespaceState) (h : ScopedHandle) (key : String) : Option String :=
  s h.tenant key

/-- Modelled from the spec: a write through a scoped handle stores the row in the
handle's namespace only; every other namespace is untouched. -/
def handleWrite (s : NamespaceState) (h : ScopedHandle) (key row : String) : NamespaceState :=
  fun t k => if t = h.tenant ∧ k = key then some row else s t k

/-- The namespace state with no rows anywhere. -/
def emptyNamespaces : NamespaceState := fun _ _ => none

/-! Tenant resolution middleware (src/unnamed/part_006). -/

/-- isValidTenantChar from src/unnamed/part_006: a lowercase letter, an uppercase
letter, a digit, or an underscore.  The Go source compares rune code points, which
`Char.toNat` reproduces. -/
def isValidTenantChar (r : Char) : Bool :=
  (decide (97 ≤ r.toNat) && decide (r.toNat ≤ 122)) ||
  (decide (65 ≤ r.toNat) && decide (r.toNat ≤ 90)) ||
  (decide (48 ≤ r.toNat) && decide (r.toNat ≤ 57)) ||
  (decide (r.toNat = 95))

/-- Byte count of the UTF-8 encoding of one character.  Go's `len` on a string is
the sum of these over the string's runes. -/
def goCharSize (c : Char) : Nat :=
  if c.toNat ≤ 127 then 1
  else if c.toNat ≤ 2047 then 2
  else if c.toNat ≤ 65535 then 3
  else 4

/-- Go's `len` of a string: its UTF-8 byte length. -/
def goLen (s : String) : Nat := (s.data.map goCharSize).sum

/-- validateTenantID from src/unnamed/part_006: rejects a byte length below 3 or
above 63, then requires every character to pass `isValidTenantChar`.  `true` is
the nil-error (accepted) case. -/
def validateTenantID (tenantID : String) : Bool :=
  if goLen tenantID < 3 then false
  else if 63 < goLen tenantID then false
  else tenantID.data.all isValidTenantChar

/-- A request as the tenant middleware sees it: the URL path, the value of the
configured tenant header ("" when absent, as Go's GetHeader reports it), the
`tenant` query parameter ("" when absent), and the `tenantSchema` value found in
the request context when the JWT middleware stored one. -/
structure TenantRequest where
  path : String
  headerTenant : String
  queryTenant : String
  claimTenant : Option String

/-- Outcome of the tenant middleware for one request: pass through on an exempt
path, abort with 400 "tenant ID is required", abort with 400 "invalid tenant ID
format", or publish the resolved tenant into the request context. -/
inductive TenantOutcome where
  | skipped
  | tenantRequired
  | invalidTenant
  | resolved (tenantID : String)
  deriving DecidableEq

/-- The Go middleware's manual path comparison:
`len(path) >= len(skip) && path[:len(skip)] == skip`.  The configured skip paths
are ASCII constants, for which the character-level take below coincides with Go's
byte slicing. -/
def pathStartsWith (path skip : String) : Bool :=
  decide (skip.length ≤ path.length) && (path.take skip.length == skip)

/-- DefaultTenantMiddlewareConfig's skip paths from src/unnamed/part_006. -/
def defaultSkipPaths : List String := ["/api/v1/auth/", "/api/v1/users/", "/health"]

/-- TenantFromHeaderMiddleware from src/unnamed/part_006 as a pure function of the
request: skip exempt paths, take the header value, fall back to the query
parameter, fall back to a non-empty JWT claim, fail with TenantRequired when
nothing resolved, validate the syntax, and publish the tenant on success.  The
source makes no database call on any of these paths. -/
def tenantFromHeaderMiddleware (skipPaths : List String) (req : TenantRequest) :
    TenantOutcome :=
  if skipPaths.any (fun p => pathStartsWith req.path p) then .skipped
  else
    let t0 := req.headerTenant
    let t1 := if t0 = "" then req.queryTenant else t0
    let t2 :=
      if t1 = "" then
        match req.claimTenant with
        | some schema => if schema ≠ "" then schema else t1
        | none => t1
      else t1
    if t2 = "" then .tenantRequired
    else if validateTenantID t2 then .resolved t2
    else .invalidTenant

/-- The resolution precedence exactly as the spec words it, for comparison with
the middleware translated from the source: first the header, then the query
parameter, then the token claim, and "" when none yields a value. -/
def specPrecedence (req : TenantRequest) : String :=
  if req.headerTenant ≠ "" then req.headerTenant
  else if req.queryTenant ≠ "" then req.queryTenant
  else
    match req.claimTenant with
    | some schema => schema
    | none => ""

/-! Identity and token service (src/unnamed/part_005). -/

/-- Claims carried by a token (src/unnamed/part_005 `Claims`). -/
structure Claims where
  userID : Nat
  email : String
  tenantSchema : String
  issuer : String
  deriving DecidableEq

/-- An abstract bearer token as the verification pipeline sees it: whether it
parses as a JWT at all, whether its header declares an ECDSA algorithm (the
keyfunc in ValidateToken rejects every other method), whether its signature
verifies under the manager's public key, its expiry time, and its claims. -/
structure Token where
  wellFormed : Bool
  algIsECDSA : Bool
  sigOK : Bool
  expiresAt : Nat
  claims : Claims

/-- The distinct failure causes of the jwt parse pipeline. -/
inductive JwtParseError where
  | malformed
  | keyfuncFailed
  | signatureInvalid
  | tokenExpired
  deriving DecidableEq

/-- Modelled from the spec: the golang-jwt v5 `ParseWithClaims` pipeline that
`ValidateToken` (src/unnamed/part_005) invokes — library code, not part of this
repository.  It rejects malformed tokens, then consults the keyfunc (which here
rejects non-ECDSA algorithms), then verifies the signature, and only then
validates claims, where the expiry check fails exactly when the current time is
past `expiresAt`.  The returned error satisfies
`errors.Is(err, jwt.ErrTokenExpired)` exactly in the last case. -/
def parseWithClaims (now : Nat) (t : Token) : Except JwtParseError Claims :=
  if t.wellFormed = false then .error .malformed
  else if t.algIsECDSA = false then .error .keyfuncFailed
  else if t.sigOK = false then .error .signatureInvalid
  else if t.expiresAt < now then .error .tokenExpired
  else .ok t.claims

/-- The two error values ValidateToken can surface (ErrExpiredToken and
ErrInvalidToken in src/unnamed/part_005). -/
inductive AuthError where
  | tokenExpired
  | tokenInvalid
  deriving DecidableEq

/-- ValidateToken from src/unnamed/part_005: parse and verify the token, map the
error to ErrExpiredToken precisely when `errors.Is(err, jwt.ErrTokenExpired)`
holds, and to ErrInvalidToken for every other failure. -/
def validateToken (now : Nat) (t : Token) : Except AuthError Claims :=
  match parseWithClaims now t with
  | .error e => if e = .tokenExpired then .error .tokenExpired else .error .tokenInvalid
  | .ok c => .ok c

/-! Shared catalog data model (src/sections/models/shared.go). -/

/-- A user row of the shared catalog (src/sections/models/shared.go `User`).
Timestamps are naturals; nullable columns are options. -/
structure User where
  id : Nat
  email : String
  passwordHash : String
  firstName : String
  lastName : String
  emailVerified : Bool
  lastLoginAt : Option Nat
  active : Bool
  googleID : Option String
  facebookID : Option String
  tiktokID : Option String
  deriving DecidableEq

/-- A tenant row of the shared catalog (src/sections/models/shared.go `Tenant`
together with the embedded multitenancy TenantModel fields the workflow sets). -/
structure Tenant where
  schemaName : String
  domainURL : String
  name : String
  displayName : String
  active : Bool
  deriving DecidableEq

/-- A membership row linking a user to a tenant (src/sections/models/shared.go
`UserTenant`; the workflow in service.go additionally sets a primary flag). -/
structure UserTenant where
  userID : Nat
  tenantSchema : String
  role : String
  primaryTenant : Bool
  deriving DecidableEq

/-- The shared catalog: users, tenants and memberships in insertion (primary-key)
order, plus the next user id the database will assign. -/
structure Catalog where
  users : List User
  tenants : List Tenant
  userTenants : List UserTenant
  nextUserID : Nat
  deriving DecidableEq

/-- The catalog with no rows. -/
def emptyCatalog : Catalog :=
  { users := [], tenants := [], userTenants := [], nextUserID := 1 }

/-- An UPDATE over the users table targeting one row by primary key. -/
def updateUserRow (id : Nat) (f : User → User) (users : List User) : List User :=
  users.map (fun u => if u.id = id then f u else u)

/-! Onboarding / provisioning workflow (src/sections/common/users/service.go). -/

/-- Local part of an email address: everything before the first at sign, as Go's
`strings.Split(email, "@")[0]` yields it. -/
def emailLocalPart (email : String) : String :=
  String.mk (email.data.takeWhile (fun c => c.toNat ≠ 64))

/-- The apostrophe character, written by code point. -/
def apostrophe : Char := Char.ofNat 39

/-- generateTenantNameFromEmail from service.go 247-257: upper-case the first
letter of the email's local part and append an apostrophe-s Workspace suffix;
an empty local part gives "My Workspace".  Go upper-cases the first byte with
strings.ToUpper; `Char.toUpper` agrees on the ASCII inputs the claims use. -/
def generateTenantNameFromEmail (email : String) : String :=
  match (emailLocalPart email).data with
  | [] => "My Workspace"
  | c :: cs => String.mk (c.toUpper :: cs) ++ String.singleton apostrophe ++ "s Workspace"

/-- One character of the slug mapping in generateTenantSchema (service.go
265-271): lower-case, then keep lowercase letters and digits and turn everything
else into an underscore.  Go lowercases the whole Unicode range first; since any
character that survives the filter is ASCII, lowering with `Char.toLower` before
the same filter agrees with the source on all ASCII input (the inputs the claims
evaluate). -/
def slugChar (r : Char) : Char :=
  let c := r.toLower
  if (decide (97 ≤ c.toNat) && decide (c.toNat ≤ 122)) ||
     (decide (48 ≤ c.toNat) && decide (c.toNat ≤ 57)) then c else '_'

/-- Slug derivation in generateTenantSchema before the collision loop (service.go
261-277): map the lower-cased local part through `slugChar` and put "t_" in front
when the result starts with a digit.  (The Go fallback for an empty split result
is unreachable: strings.Split always returns at least one element.) -/
def baseSlug (email : String) : String :=
  let schema := String.mk ((emailLocalPart email).data.map slugChar)
  match schema.data with
  | [] => schema
  | c :: _ => if 48 ≤ c.toNat ∧ c.toNat ≤ 57 then "t_" ++ schema else schema

/-- The k-th candidate the collision loop tries: the base slug itself first, then
the base with a numeric suffix counting from 1 (service.go 279-289). -/
def slugCandidate (base : String) : Nat → String
  | 0 => base
  | Nat.succ n => base ++ "_" ++ toString (n + 1)

/-- The collision loop of generateTenantSchema with explicit fuel standing for
the number of iterations still allowed; the Go loop (`for { ... }`) has no such
bound, so the source's behaviour is the unbounded-fuel limit.  `taken` is the
database existence check for a schema name; `k` is the index of the candidate
under consideration.  Returns none when the fuel runs out before a free candidate
is found. -/
def slugLoop (taken : String → Bool) (base : String) : Nat → Nat → Option String
  | 0, _ => none
  | Nat.succ fuel, k =>
    if taken (slugCandidate base k) then slugLoop taken base fuel (k + 1)
    else some (slugCandidate base k)

/-- generateTenantSchema from service.go 260-294, fuelled: derive the base slug
from the email and run the collision loop against the existence check. -/
def generateTenantSchema (taken : String → Bool) (fuel : Nat) (email : String) :
    Option String :=
  slugLoop taken (baseSlug email) fuel 0

/-- The existence check generateTenantSchema runs against the committed catalog. -/
def tenantTaken (cat : Catalog) (schema : String) : Bool :=
  cat.tenants.any (fun t => t.schemaName == schema)

/-- CreateUserWithTenantParams from service.go: the user row to insert plus an
optional explicit tenant name and schema ("" meaning absent). -/
structure CreateUserWithTenantParams where
  user : User
  tenantName : String
  tenantSchema : String

/-- The tenant schema the workflow will use: the explicit parameter when given,
otherwise the generated slug (service.go 47-50). -/
def resolveSchema (cat : Catalog) (fuel : Nat) (params : CreateUserWithTenantParams) :
    Option String :=
  if params.tenantSchema = "" then
    generateTenantSchema (tenantTaken cat) fuel params.user.email
  else some params.tenantSchema

/-- Steps 4 to 6 of the provisioning transaction (service.go 104-141): count the
memberships already recorded for the schema, insert the membership with role
admin exactly when that count is zero and the primary flag always true, then
commit the transaction state `tx`. -/
def commitMembership (tx : Catalog) (user : User) (tenant : Tenant)
    (tenantSchema : String) : Catalog × Except String (User × Tenant) :=
  let count := (tx.userTenants.filter (fun ut => ut.tenantSchema == tenantSchema)).length
  let role := if count = 0 then "admin" else "member"
  let ut : UserTenant :=
    { userID := user.id, tenantSchema := tenantSchema, role := role, primaryTenant := true }
  ({ tx with userTenants := tx.userTenants ++ [ut] }, .ok (user, tenant))

/-- CreateUserWithTenant from service.go 39-144 as a transition on the shared
catalog.  `mig` gives the outcome of tenant-schema migration (CreateTenantSchema,
an external database operation) per schema name; `fuel` bounds the
slug-generation loop, which the source does not bound.  On any error the
transaction rolls back and the catalog comes back unchanged. -/
def createUserWithTenant (mig : String → Bool) (fuel : Nat) (cat : Catalog)
    (params : CreateUserWithTenantParams) : Catalog × Except String (User × Tenant) :=
  match resolveSchema cat fuel params with
  | none => (cat, .error "tenant schema generation exhausted its fuel")
  | some tenantSchema =>
    let tenantName :=
      if params.tenantName = "" then generateTenantNameFromEmail params.user.email
      else params.tenantName
    let user := { params.user with id := cat.nextUserID }
    let tx : Catalog := { cat with users := cat.users ++ [user], nextUserID := cat.nextUserID + 1 }
    match tx.tenants.find? (fun t => t.schemaName == tenantSchema) with
    | some tenant => commitMembership tx user tenant tenantSchema
    | none =>
      let tenant : Tenant :=
        { schemaName := tenantSchema, domainURL := tenantSchema,
          name := tenantName, displayName := tenantName, active := true }
      let tx2 : Catalog := { tx with tenants := tx.tenants ++ [tenant] }
      if mig tenantSchema then commitMembership tx2 user tenant tenantSchema
      else (cat, .error "failed to migrate tenant schema")

/-! OAuth find-or-create (src/sections/common/users/service.go 147-223). -/

/-- Whether the provider string is one of the three supported OAuth providers
(the switch in FindOrCreateUserWithOAuth; anything else is rejected). -/
def supportedProvider (provider : String) : Bool :=
  provider == "google" || provider == "facebook" || provider == "tiktok"

/-- The provider-specific external-id column of a user, for a supported provider
(the switch over google_id / facebook_id / tiktok_id). -/
def providerField (provider : String) (u : User) : Option String :=
  if provider = "google" then u.googleID
  else if provider = "facebook" then u.facebookID
  else u.tiktokID

/-- Set the provider-specific external-id column, for a supported provider. -/
def setProviderField (provider oauthID : String) (u : User) : User :=
  if provider = "google" then { u with googleID := some oauthID }
  else if provider = "facebook" then { u with facebookID := some oauthID }
  else { u with tiktokID := some oauthID }

/-- The fall-through of FindOrCreateUserWithOAuth: full provisioning through
CreateUserWithTenant with no explicit tenant name or schema (service.go
208-222). -/
def oauthCreatePath (mig : String → Bool) (fuel : Nat) (cat : Catalog) (user : User) :
    Catalog × Except String User :=
  match createUserWithTenant mig fuel cat { user := user, tenantName := "", tenantSchema := "" } with
  | (cat2, .ok (u, _)) => (cat2, .ok u)
  | (cat2, .error e) => (cat2, .error ("failed to create user with tenant: " ++ e))

/-- FindOrCreateUserWithOAuth from service.go 147-223: look the user up by the
provider-specific external id and refresh last_login when found; otherwise, when
the callback reported a non-empty email matching an existing user, link the
external id to that account and refresh last_login; otherwise run the full
provisioning workflow.  `now` is the current time used for last_login. -/
def findOrCreateUserWithOAuth (mig : String → Bool) (fuel : Nat) (now : Nat)
    (cat : Catalog) (user : User) (provider oauthID : String) :
    Catalog × Except String User :=
  if supportedProvider provider = false then
    (cat, .error ("unsupported OAuth provider: " ++ provider))
  else
    match cat.users.find? (fun u => providerField provider u == some oauthID) with
    | some existing =>
      let users2 := updateUserRow existing.id (fun u => { u with lastLoginAt := some now }) cat.users
      ({ cat with users := users2 }, .ok { existing with lastLoginAt := some now })
    | none =>
      if user.email ≠ "" then
        match cat.users.find? (fun u => u.email == user.email) with
        | some existing =>
          let users2 := updateUserRow existing.id
            (fun u => setProviderField provider oauthID { u with lastLoginAt := some now }) cat.users
          ({ cat with users := users2 },
           .ok (setProviderField provider oauthID { existing with lastLoginAt := some now }))
        | none => oauthCreatePath mig fuel cat user
      else oauthCreatePath mig fuel cat user

/-! Password registration and login handlers (src/unnamed/part_007). -/

/-- Outcome of the Register handler: 409 conflict on a duplicate email, or 201
with a token; the token is the triple GenerateToken receives (user id, email,
tenant schema). -/
inductive RegisterOutcome where
  | conflict
  | created (token : Nat × String × String) (user : User)
  deriving DecidableEq

/-- Register from src/unnamed/part_007 85-136: reject when a user with the email
already exists, otherwise insert a user row carrying the bcrypt hash of the
password (`hashPw` models bcrypt.GenerateFromPassword) and return a token
generated with an empty tenant schema.  No tenant row and no membership row is
touched on any path. -/
def register (hashPw : String → String) (cat : Catalog)
    (email password firstName lastName : String) : Catalog × RegisterOutcome :=
  match cat.users.find? (fun u => u.email == email) with
  | some _ => (cat, .conflict)
  | none =>
    let user : User :=
      { id := cat.nextUserID, email := email, passwordHash := hashPw password,
        firstName := firstName, lastName := lastName, emailVerified := false,
        lastLoginAt := none, active := true,
        googleID := none, facebookID := none, tiktokID := none }
    ({ cat with users := cat.users ++ [user], nextUserID := cat.nextUserID + 1 },
     .created (user.id, user.email, "") user)

/-- Outcome of the Login handler: an HTTP failure status with its response body
message, or success carrying the token triple GenerateToken receives. -/
inductive LoginOutcome where
  | failure (status : Nat) (body : String)
  | success (token : Nat × String × String)
  deriving DecidableEq

/-- Login from src/unnamed/part_007 139-196: look the user up by email (unknown
email gives 401 "invalid credentials"), reject a deactivated account with 401
"account is disabled" before the password is even checked, reject a wrong
password with 401 "invalid credentials" (`verify h p` models
bcrypt.CompareHashAndPassword succeeding), then refresh last_login, pick the
earliest membership's schema ("" when there is none) and issue the token. -/
def login (verify : String → String → Bool) (now : Nat) (cat : Catalog)
    (email password : String) : Catalog × LoginOutcome :=
  match cat.users.find? (fun u => u.email == email) with
  | none => (cat, .failure 401 "invalid credentials")
  | some user =>
    if user.active = false then (cat, .failure 401 "account is disabled")
    else if verify user.passwordHash password = false then
      (cat, .failure 401 "invalid credentials")
    else
      let users2 := updateUserRow user.id (fun u => { u with lastLoginAt := some now }) cat.users
      let cat2 : Catalog := { cat with users := users2 }
      let tenantSchema :=
        match cat.userTenants.find? (fun ut => ut.userID == user.id) with
        | some ut => ut.tenantSchema
        | none => ""
      (cat2, .success (user.id, user.email, tenantSchema))

/-! Concrete fixtures used by witness theorems. -/

/-- A fresh user row as the handlers build one, before the database assigns the id. -/
def mkUser (email : String) : User :=
  { id := 0, email := email, passwordHash := "", firstName := "", lastName := "",
    emailVerified := false, lastLoginAt := none, active := true,
    googleID := none, facebookID := none, tiktokID := none }

/-- A request carrying all three tenant sources with different values. -/
def sampleRequest : TenantRequest :=
  { path := "/api/v1/profile", headerTenant := "alpha_hdr", queryTenant := "beta_qry",
    claimTenant := some "gamma_clm" }

/-- A request whose only tenant source is a syntactically invalid header. -/
def badTenantRequest : TenantRequest :=
  { path := "/api/v1/profile", headerTenant := "a-b", queryTenant := "", claimTenant := none }

/-- Claims of the sample token. -/
def sampleClaims : Claims :=
  { userID := 1, email := "owner@acme.test", tenantSchema := "owner", issuer := "awning-backend" }

/-- A structurally sound token whose one-hour expiry window has passed. -/
def expiredSampleToken : Token :=
  { wellFormed := true, algIsECDSA := true, sigOK := true, expiresAt := 3600,
    claims := sampleClaims }

/-- The catalog after provisioning owner@acme.test from the empty catalog with
always-succeeding migration. -/
def catAfterOwner : Catalog :=
  (createUserWithTenant (fun _ => true) 5 emptyCatalog
    { user := mkUser "owner@acme.test", tenantName := "", tenantSchema := "" }).1

/-- A second provisioning whose derived slug collides with the existing owner
tenant. -/
def collidingRun : Catalog × Except String (User × Tenant) :=
  createUserWithTenant (fun _ => true) 5 catAfterOwner
    { user := mkUser "owner@other.example", tenantName := "", tenantSchema := "" }

/-- The tenant row the workflow creates for owner@acme.test. -/
def ownerTenant : Tenant :=
  { schemaName := "owner", domainURL := "owner",
    name := generateTenantNameFromEmail "owner@acme.test",
    displayName := generateTenantNameFromEmail "owner@acme.test", active := true }

/-- A catalog holding one active local account with no external ids. -/
def catWithLocalUser : Catalog :=
  { users := [{ mkUser "a@example.com" with id := 1, passwordHash := "hash_a" }],
    tenants := [], userTenants := [], nextUserID := 2 }

/-- A catalog holding one deactivated account. -/
def catWithDisabledUser : Catalog :=
  { users := [{ mkUser "d@example.com" with id := 1, passwordHash := "pw_d", active := false }],
    tenants := [], userTenants := [], nextUserID := 2 }

end Awning

namespace Awning

/-! Supporting lemmas. -/

/-- Every accepted tenant character is ASCII, so it encodes in one byte. -/
theorem goCharSize_of_valid (c : Char) (h : isValidTenantChar c = true) : goCharSize c = 1 := by
  have hle : c.toNat ≤ 127 := by
    unfold isValidTenantChar at h
    simp only [Bool.or_eq_true, Bool.and_eq_true, decide_eq_true_eq] at h
    generalize c.toNat = n at h ⊢
    rcases h with ⟨h1, h2⟩ | ⟨h1, h2⟩ | ⟨h1, h2⟩ | h1 <;> omega
  unfold goCharSize
  rw [if_pos hle]

/-- A list of accepted tenant characters has as many UTF-8 bytes as characters. -/
theorem goCharSize_sum_of_valid (l : List Char) (h : ∀ c ∈ l, isValidTenantChar c = true) :
    (l.map goCharSize).sum = l.length := by
  induction l with
  | nil => rfl
  | cons c cs ih =>
    have hc := h c (List.mem_cons_self c cs)
    have hcs : ∀ x ∈ cs, isValidTenantChar x = true :=
      fun x hx => h x (List.mem_cons_of_mem c hx)
    simp [goCharSize_of_valid c hc, ih hcs]
    omega

/-- On strings of accepted tenant characters, Go's byte length is the character
count. -/
theorem goLen_eq_length_of_valid (s : String) (h : ∀ c ∈ s.data, isValidTenantChar c = true) :
    goLen s = s.length :=
  goCharSize_sum_of_valid s.data h

/-- On a non-exempt request the tenant middleware is the spec's precedence
formula followed by the syntax validation. -/
theorem tenantMiddleware_spec (skipPaths : List String) (req : TenantRequest)
    (hskip : skipPaths.any (fun p => pathStartsWith req.path p) = false) :
    tenantFromHeaderMiddleware skipPaths req =
      (if specPrecedence req = "" then .tenantRequired
       else if validateTenantID (specPrecedence req) then .resolved (specPrecedence req)
       else .invalidTenant) := by
  unfold tenantFromHeaderMiddleware specPrecedence
  rw [hskip]
  simp only [Bool.false_eq_true, if_false]
  by_cases h1 : req.headerTenant = ""
  · by_cases h2 : req.queryTenant = ""
    · cases hc : req.claimTenant with
      | none => simp [h1, h2, hc]
      | some schema =>
        by_cases h3 : schema = ""
        · simp [h1, h2, hc, h3]
        · simp [h1, h2, hc, h3]
    · simp [h1, h2]
  · simp [h1]

/-- Path lemma: when the schema does not resolve (the slug loop exhausted its
fuel), the workflow reports an error and leaves the catalog unchanged. -/
theorem createUserWithTenant_no_schema (mig : String → Bool) (fuel : Nat) (cat : Catalog)
    (params : CreateUserWithTenantParams)
    (hrs : resolveSchema cat fuel params = none) :
    createUserWithTenant mig fuel cat params =
      (cat, .error "tenant schema generation exhausted its fuel") := by
  unfold createUserWithTenant
  rw [hrs]

/-- Path lemma: when the schema resolves and some tenant already owns it, the
provisioning workflow joins that tenant. -/
theorem createUserWithTenant_existing (mig : String → Bool) (fuel : Nat) (cat : Catalog)
    (params : CreateUserWithTenantParams) (schema : String) (t0 : Tenant)
    (hrs : resolveSchema cat fuel params = some schema)
    (hf : cat.tenants.find? (fun t => t.schemaName == schema) = some t0) :
    createUserWithTenant mig fuel cat params =
      commitMembership
        { cat with users := cat.users ++ [{ params.user with id := cat.nextUserID }],
                   nextUserID := cat.nextUserID + 1 }
        { params.user with id := cat.nextUserID } t0 schema := by
  unfold createUserWithTenant
  rw [hrs]
  simp only [hf]

/-- Path lemma: when the schema resolves, no tenant owns it yet and migration
succeeds, the workflow creates the tenant row and joins it. -/
theorem createUserWithTenant_fresh (mig : String → Bool) (fuel : Nat) (cat : Catalog)
    (params : CreateUserWithTenantParams) (schema : String)
    (hrs : resolveSchema cat fuel params = some schema)
    (hf : cat.tenants.find? (fun t => t.schemaName == schema) = none)
    (hmig : mig schema = true) :
    createUserWithTenant mig fuel cat params =
      commitMembership
        { cat with users := cat.users ++ [{ params.user with id := cat.nextUserID }],
                   tenants := cat.tenants ++
                     [{ schemaName := schema, domainURL := schema,
                        name := if params.tenantName = "" then
                            generateTenantNameFromEmail params.user.email else params.tenantName,
                        displayName := if params.tenantName = "" then
                            generateTenantNameFromEmail params.user.email else params.tenantName,
                        active := true }],
                   nextUserID := cat.nextUserID + 1 }
        { params.user with id := cat.nextUserID }
        { schemaName := schema, domainURL := schema,
          name := if params.tenantName = "" then
              generateTenantNameFromEmail params.user.email else params.tenantName,
          displayName := if params.tenantName = "" then
              generateTenantNameFromEmail params.user.email else params.tenantName,
          active := true }
        schema := by
  unfold createUserWithTenant
  rw [hrs]
  simp only [hf, hmig, if_true]

/-- Path lemma: when the schema resolves, no tenant owns it and migration fails,
the transaction rolls back to the initial catalog. -/
theorem createUserWithTenant_migration_failed (mig : String → Bool) (fuel : Nat)
    (cat : Catalog) (params : CreateUserWithTenantParams) (schema : String)
    (hrs : resolveSchema cat fuel params = some schema)
    (hf : cat.tenants.find? (fun t => t.schemaName == schema) = none)
    (hmig : mig schema = false) :
    createUserWithTenant mig fuel cat params =
      (cat, .error "failed to migrate tenant schema") := by
  unfold createUserWithTenant
  rw [hrs]
  simp only [hf, hmig, Bool.false_eq_true, if_false]

/-- The membership row commitMembership inserts and its effect on the catalog. -/
theorem commitMembership_spec (tx : Catalog) (user : User) (tenant : Tenant)
    (schema : String) :
    commitMembership tx user tenant schema =
      ({ tx with userTenants := tx.userTenants ++
          [{ userID := user.id, tenantSchema := schema,
             role := if (tx.userTenants.filter
                  (fun ut => ut.tenantSchema == schema)).length = 0
                then "admin" else "member",
             primaryTenant := true }] },
       .ok (user, tenant)) := rfl

/-! Claim theorems. -/

/-- C1: a row written through a unit of work scoped to tenant alpha is invisible
to a read of the same key through a unit of work scoped to any different tenant
beta: the read returns exactly what beta's namespace already held, so not-found
whenever beta's namespace has no row at that key — never the row written under
alpha. -/
theorem c1_cross_tenant_isolation (s : NamespaceState) (alpha beta key row : String)
    (hne : beta ≠ alpha) :
    withTenant beta (fun hb =>
      handleRead (withTenant alpha (fun ha => handleWrite s ha key row)) hb key)
        = s beta key ∧
    (s beta key = none →
      withTenant beta (fun hb =>
        handleRead (withTenant alpha (fun ha => handleWrite s ha key row)) hb key) = none) := by
  constructor
  · simp [withTenant, handleRead, handleWrite, hne]
  · intro h
    simp [withTenant, handleRead, handleWrite, hne, h]

/-- C1 witness: on the empty namespace state, a write under alpha is not found by
a read of the same key under beta. -/
theorem c1_cross_tenant_isolation_witness :
    ("beta" : String) ≠ "alpha" ∧
    withTenant "beta" (fun hb =>
      handleRead (withTenant "alpha" (fun ha => handleWrite emptyNamespaces ha "k" "v")) hb "k")
      = none :=
  ⟨by decide, (c1_cross_tenant_isolation emptyNamespaces "alpha" "beta" "k" "v" (by decide)).2 rfl⟩

/-- C5: on a non-exempt request, the middleware resolves the tenant by precedence
header, then query parameter, then token claim: any published tenant equals the
precedence value, the precedence value is the header when that is non-empty, the
query parameter when only it is, the claim when only it is, and when all three
are absent or empty the middleware answers TenantRequired without publishing a
tenant. -/
theorem c5_resolution_precedence (skipPaths : List String) (req : TenantRequest)
    (hskip : skipPaths.any (fun p => pathStartsWith req.path p) = false) :
    (∀ t, tenantFromHeaderMiddleware skipPaths req = .resolved t → t = specPrecedence req) ∧
    (req.headerTenant ≠ "" → specPrecedence req = req.headerTenant) ∧
    (req.headerTenant = "" → req.queryTenant ≠ "" → specPrecedence req = req.queryTenant) ∧
    (req.headerTenant = "" → req.queryTenant = "" →
      ∀ s, req.claimTenant = some s → specPrecedence req = s) ∧
    (specPrecedence req = "" → tenantFromHeaderMiddleware skipPaths req = .tenantRequired) := by
  refine ⟨?_, ?_, ?_, ?_, ?_⟩
  · intro t ht
    rw [tenantMiddleware_spec skipPaths req hskip] at ht
    by_cases h0 : specPrecedence req = ""
    · simp [h0] at ht
    · by_cases hv : validateTenantID (specPrecedence req)
      · simp [h0, hv] at ht
        exact ht.symm
      · simp [h0, hv] at ht
  · intro h
    simp [specPrecedence, h]
  · intro h1 h2
    simp [specPrecedence, h1, h2]
  · intro h1 h2 s hs
    simp [specPrecedence, h1, h2, hs]
  · intro h0
    rw [tenantMiddleware_spec skipPaths req hskip]
    simp [h0]

/-- C5 witness: with all three sources set to different values, the request is
not exempt and the published tenant is the header's value. -/
theorem c5_resolution_precedence_witness :
    (defaultSkipPaths.any (fun p => pathStartsWith sampleRequest.path p) = false) ∧
    ("alpha_hdr" : String) = specPrecedence sampleRequest :=
  ⟨by decide,
   (c5_resolution_precedence defaultSkipPaths sampleRequest (by decide)).1 "alpha_hdr" (by decide)⟩

/-- C6: the tenant identifier syntax check accepts exactly the strings of length
3 to 63 whose characters all lie in [A-Za-z0-9_]; on a non-exempt request whose
resolved identifier is non-empty, a violating identifier makes the middleware
answer InvalidTenantID (the middleware embedding is a pure function and performs
no database access, mirroring the purely syntactic source check), and a
satisfying identifier is never answered with InvalidTenantID. -/
theorem c6_tenant_id_validation (s : String) :
    (validateTenantID s = true ↔
      (3 ≤ s.length ∧ s.length ≤ 63 ∧ ∀ c ∈ s.data, isValidTenantChar c = true)) ∧
    (∀ skipPaths req, skipPaths.any (fun p => pathStartsWith req.path p) = false →
      specPrecedence req = s → s ≠ "" →
      ((validateTenantID s = false →
          tenantFromHeaderMiddleware skipPaths req = .invalidTenant) ∧
       (validateTenantID s = true →
          tenantFromHeaderMiddleware skipPaths req ≠ .invalidTenant))) := by
  constructor
  · constructor
    · intro hv
      unfold validateTenantID at hv
      by_cases h1 : goLen s < 3
      · simp [h1] at hv
      · by_cases h2 : 63 < goLen s
        · simp [h1, h2] at hv
        · rw [if_neg h1, if_neg h2, List.all_eq_true] at hv
          have hlen := goLen_eq_length_of_valid s hv
          exact ⟨by omega, by omega, hv⟩
    · rintro ⟨h3, h63, hall⟩
      have hlen := goLen_eq_length_of_valid s hall
      unfold validateTenantID
      rw [if_neg (by omega), if_neg (by omega), List.all_eq_true]
      exact hall
  · intro skipPaths req hskip hres hne
    rw [tenantMiddleware_spec skipPaths req hskip, hres]
    constructor
    · intro hv
      simp [hne, hv]
    · intro hv
      simp [hne, hv]

/-- C6 witness: the hyphenated identifier a-b is rejected and drives the
middleware to InvalidTenantID on a concrete non-exempt request. -/
theorem c6_tenant_id_validation_witness :
    validateTenantID "a-b" = false ∧
    tenantFromHeaderMiddleware defaultSkipPaths badTenantRequest = .invalidTenant :=
  ⟨by decide,
   ((c6_tenant_id_validation "a-b").2 defaultSkipPaths badTenantRequest
      (by decide) (by decide) (by decide)).1 (by decide)⟩

/-- C4 counterexample: provisioning owner@acme.test and then owner@other.example
— two runs whose derived slugs collide on "owner" — does not link the second
user to the first tenant row: the collision loop moves the second run to the
fresh schema "owner_1", a second tenant row is created, and both memberships
carry role admin, refuting "both linked to the same tenant row, the first
membership admin and the second member". -/
theorem c4_counterexample :
    collidingRun.1.userTenants.map (fun ut => ut.tenantSchema) = ["owner", "owner_1"] ∧
    collidingRun.1.userTenants.map (fun ut => ut.role) = ["admin", "admin"] ∧
    collidingRun.1.tenants.length = 2 := by
  refine ⟨?_, ?_, ?_⟩ <;> decide

/-- C4 (amended): within the provisioning workflow the inserted membership's
role is admin exactly when the count of existing memberships for the resolved
schema is zero, and member otherwise, with the primary flag always true; a
provisioning explicitly targeting an existing schema that already has a
membership joins that same tenant row (no new tenant row) with role member —
whereas with auto-derived slugs a collision moves the run to a fresh suffixed
schema instead of joining, as the counterexample records. -/
theorem c4_first_membership_admin (mig : String → Bool) (fuel : Nat) (cat : Catalog)
    (params : CreateUserWithTenantParams) :
    (∀ cat2 u t, createUserWithTenant mig fuel cat params = (cat2, .ok (u, t)) →
      cat2.userTenants = cat.userTenants ++
        [{ userID := u.id, tenantSchema := t.schemaName,
           role := if (cat.userTenants.filter
                (fun ut => ut.tenantSchema == t.schemaName)).length = 0
              then "admin" else "member",
           primaryTenant := true }]) ∧
    (∀ t0, params.tenantSchema ≠ "" →
      cat.tenants.find? (fun t => t.schemaName == params.tenantSchema) = some t0 →
      (cat.userTenants.filter
          (fun ut => ut.tenantSchema == params.tenantSchema)).length ≠ 0 →
      (createUserWithTenant mig fuel cat params).1.tenants = cat.tenants ∧
      (createUserWithTenant mig fuel cat params).2 =
        .ok ({ params.user with id := cat.nextUserID }, t0) ∧
      (createUserWithTenant mig fuel cat params).1.userTenants =
        cat.userTenants ++
          [{ userID := cat.nextUserID, tenantSchema := params.tenantSchema,
             role := "member", primaryTenant := true }]) := by
  constructor
  · intro cat2 u t h
    cases hrs : resolveSchema cat fuel params with
    | none =>
      rw [createUserWithTenant_no_schema mig fuel cat params hrs] at h
      exact absurd h (by simp)
    | some schema =>
      cases hf : cat.tenants.find? (fun t2 => t2.schemaName == schema) with
      | some t0 =>
        rw [createUserWithTenant_existing mig fuel cat params schema t0 hrs hf,
            commitMembership_spec] at h
        have hts : t0.schemaName = schema := by
          have hp := List.find?_some hf
          simpa using hp
        injection h with h1 h2
        injection h2 with h2
        injection h2 with h3 h4
        subst h1
        subst h3
        subst h4
        simp [hts]
      | none =>
        cases hmig : mig schema with
        | false =>
          rw [createUserWithTenant_migration_failed mig fuel cat params schema hrs hf hmig] at h
          exact absurd h (by simp)
        | true =>
          rw [createUserWithTenant_fresh mig fuel cat params schema hrs hf hmig,
              commitMembership_spec] at h
          injection h with h1 h2
          injection h2 with h2
          injection h2 with h3 h4
          subst h1
          subst h3
          subst h4
          simp
  · intro t0 hne hf hcount
    have hrs : resolveSchema cat fuel params = some params.tenantSchema := by
      unfold resolveSchema
      rw [if_neg hne]
    rw [createUserWithTenant_existing mig fuel cat params params.tenantSchema t0 hrs hf,
        commitMembership_spec]
    refine ⟨rfl, rfl, ?_⟩
    simp [hcount]

/-- C4 witness: a second user explicitly targeting the already-provisioned owner
schema joins the existing tenant with role member. -/
theorem c4_first_membership_admin_witness :
    ((catAfterOwner.userTenants.filter (fun ut => ut.tenantSchema == "owner")).length ≠ 0) ∧
    (createUserWithTenant (fun _ => true) 5 catAfterOwner
      { user := mkUser "second@acme.test", tenantName := "", tenantSchema := "owner" }).1.userTenants =
      catAfterOwner.userTenants ++
        [{ userID := catAfterOwner.nextUserID, tenantSchema := "owner",
           role := "member", primaryTenant := true }] :=
  ⟨by decide,
   ((c4_first_membership_admin (fun _ => true) 5 catAfterOwner
      { user := mkUser "second@acme.test", tenantName := "", tenantSchema := "owner" }).2
      ownerTenant (by decide) (by decide) (by decide)).2.2⟩

/-- C7: ValidateToken answers ErrExpiredToken exactly when the sole verification
failure is expiry (the token is well formed, declares an ECDSA algorithm and its
signature verifies, but its expiry has passed); every other verification failure
answers ErrInvalidToken, never ErrExpiredToken. -/
theorem c7_token_expiry_classification (now : Nat) (t : Token) :
    (validateToken now t = .error .tokenExpired ↔
      (t.wellFormed = true ∧ t.algIsECDSA = true ∧ t.sigOK = true ∧ t.expiresAt < now)) ∧
    ((t.wellFormed = false ∨ t.algIsECDSA = false ∨ t.sigOK = false) →
      validateToken now t = .error .tokenInvalid) := by
  unfold validateToken parseWithClaims
  constructor
  · cases hw : t.wellFormed <;> cases ha : t.algIsECDSA <;> cases hs : t.sigOK <;>
      by_cases he : t.expiresAt < now <;> simp [he]
  · intro h
    rcases h with h | h | h <;> cases hw : t.wellFormed <;> cases ha : t.algIsECDSA <;>
      cases hs : t.sigOK <;> simp_all

/-- C2 counterexample: registering owner@acme.test through the password Register
handler on the empty catalog creates no tenant row at all (in particular none
with schema "owner") and no membership row — refuting the claim that password
registration runs the full user-plus-tenant provisioning workflow. -/
theorem c2_counterexample :
    (register (fun p => p) emptyCatalog "owner@acme.test" "pw12345678" "" "").1.tenants = [] ∧
    (register (fun p => p) emptyCatalog "owner@acme.test" "pw12345678" "" "").1.userTenants = [] := by
  constructor <;> rfl

/-- C2 (amended): password registration does not run the provisioning workflow:
with a fresh email it inserts exactly one user row, leaves the tenants and
memberships of the shared catalog untouched (no tenant is derived from the email
local part and no admin membership is created), and issues a token whose tenant
schema is empty; the full workflow is run only by the OAuth flow. -/
theorem c2_register_without_provisioning (hashPw : String → String) (cat : Catalog)
    (email password firstName lastName : String)
    (hfresh : cat.users.find? (fun u => u.email == email) = none) :
    (register hashPw cat email password firstName lastName).1.tenants = cat.tenants ∧
    (register hashPw cat email password firstName lastName).1.userTenants = cat.userTenants ∧
    (register hashPw cat email password firstName lastName).1.users =
      cat.users ++
        [{ id := cat.nextUserID, email := email, passwordHash := hashPw password,
           firstName := firstName, lastName := lastName, emailVerified := false,
           lastLoginAt := none, active := true, googleID := none, facebookID := none,
           tiktokID := none }] ∧
    (register hashPw cat email password firstName lastName).2 =
      .created (cat.nextUserID, email, "")
        { id := cat.nextUserID, email := email, passwordHash := hashPw password,
          firstName := firstName, lastName := lastName, emailVerified := false,
          lastLoginAt := none, active := true, googleID := none, facebookID := none,
          tiktokID := none } := by
  unfold register
  rw [hfresh]
  exact ⟨rfl, rfl, rfl, rfl⟩

/-- C2 witness: a concrete fresh registration on the empty catalog. -/
theorem c2_register_without_provisioning_witness :
    emptyCatalog.users.find? (fun u => u.email == "fresh@acme.test") = none ∧
    (register (fun p => p) emptyCatalog "fresh@acme.test" "pw12345678" "" "").1.userTenants =
      emptyCatalog.userTenants :=
  ⟨rfl, (c2_register_without_provisioning (fun p => p) emptyCatalog
      "fresh@acme.test" "pw12345678" "" "" rfl).2.1⟩

/-- C3: when tenant-schema migration fails after the user and tenant rows were
inserted in the provisioning transaction, the whole transaction rolls back: the
catalog comes back unchanged from createUserWithTenant, an error is reported,
and if no user with the attempted email existed before, none exists afterward. -/
theorem c3_migration_failure_rollback (mig : String → Bool) (fuel : Nat) (cat : Catalog)
    (params : CreateUserWithTenantParams) (schema : String)
    (hschema : resolveSchema cat fuel params = some schema)
    (hnew : cat.tenants.find? (fun t => t.schemaName == schema) = none)
    (hmig : mig schema = false) :
    (createUserWithTenant mig fuel cat params).1 = cat ∧
    (∃ e, (createUserWithTenant mig fuel cat params).2 = .error e) ∧
    ((∀ u ∈ cat.users, u.email ≠ params.user.email) →
      ∀ u ∈ (createUserWithTenant mig fuel cat params).1.users,
        u.email ≠ params.user.email) := by
  have hres : createUserWithTenant mig fuel cat params =
      (cat, .error "failed to migrate tenant schema") := by
    unfold createUserWithTenant
    rw [hschema]
    simp only [hnew, hmig, Bool.false_eq_true, if_false]
  refine ⟨by rw [hres], ⟨_, by rw [hres]⟩, ?_⟩
  intro h u hu
  rw [hres] at hu
  exact h u hu

/-- C3 witness: migration forced to fail on the empty catalog leaves the catalog
empty. -/
theorem c3_migration_failure_rollback_witness :
    resolveSchema emptyCatalog 5
      { user := mkUser "owner@acme.test", tenantName := "", tenantSchema := "" } =
        some "owner" ∧
    (createUserWithTenant (fun _ => false) 5 emptyCatalog
      { user := mkUser "owner@acme.test", tenantName := "", tenantSchema := "" }).1 =
      emptyCatalog :=
  ⟨by decide,
   (c3_migration_failure_rollback (fun _ => false) 5 emptyCatalog
      { user := mkUser "owner@acme.test", tenantName := "", tenantSchema := "" }
      "owner" (by decide) (by decide) rfl).1⟩

/-- C7 witness: a token with a one-hour window validated two hours later comes
back as ErrExpiredToken specifically. -/
theorem c7_token_expiry_classification_witness :
    (expiredSampleToken.wellFormed = true ∧ expiredSampleToken.algIsECDSA = true ∧
      expiredSampleToken.sigOK = true ∧ expiredSampleToken.expiresAt < 7200) ∧
    validateToken 7200 expiredSampleToken = .error .tokenExpired :=
  ⟨⟨rfl, rfl, rfl, by decide⟩,
   (c7_token_expiry_classification 7200 expiredSampleToken).1.mpr ⟨rfl, rfl, rfl, by decide⟩⟩

/-- setProviderField never touches the email column. -/
theorem setProviderField_email (provider oauthID : String) (u : User) :
    (setProviderField provider oauthID u).email = u.email := by
  unfold setProviderField
  by_cases h1 : provider = "google" <;> by_cases h2 : provider = "facebook" <;> simp [h1, h2]

/-- A row update by primary key keeps the table's length. -/
theorem updateUserRow_length (id : Nat) (f : User → User) (users : List User) :
    (updateUserRow id f users).length = users.length := by
  simp [updateUserRow]

/-- A row update whose transformation preserves a predicate preserves the number
of rows satisfying it. -/
theorem updateUserRow_filter_length (id : Nat) (f : User → User) (users : List User)
    (p : User → Bool) (hp : ∀ u, p (f u) = p u) :
    ((updateUserRow id f users).filter p).length = (users.filter p).length := by
  unfold updateUserRow
  induction users with
  | nil => rfl
  | cons u us ih =>
    simp only [List.map_cons, List.filter_cons]
    by_cases h : u.id = id
    · rw [if_pos h, hp u]
      cases hq : p u <;> simp [hq, ih]
    · rw [if_neg h]
      cases hq : p u <;> simp [hq, ih]

/-- C8: an OAuth callback whose external id matches no user but whose email
matches an existing account does not create a user row: the provider-specific
external id is linked onto the matched account, its last_login is refreshed, and
that account is returned; the number of user rows and the number of rows
carrying that email are unchanged (so exactly one such row exists afterward when
exactly one existed before), and no tenant is created. -/
theorem c8_oauth_links_by_email (mig : String → Bool) (fuel : Nat) (now : Nat)
    (cat : Catalog) (user : User) (provider oauthID : String) (ex : User)
    (hp : provider = "google" ∨ provider = "facebook" ∨ provider = "tiktok")
    (hid : cat.users.find? (fun u => providerField provider u == some oauthID) = none)
    (hemail : user.email ≠ "")
    (hex : cat.users.find? (fun u => u.email == user.email) = some ex) :
    (findOrCreateUserWithOAuth mig fuel now cat user provider oauthID).1.users =
      updateUserRow ex.id
        (fun u => setProviderField provider oauthID { u with lastLoginAt := some now })
        cat.users ∧
    (findOrCreateUserWithOAuth mig fuel now cat user provider oauthID).2 =
      .ok (setProviderField provider oauthID { ex with lastLoginAt := some now }) ∧
    (findOrCreateUserWithOAuth mig fuel now cat user provider oauthID).1.users.length =
      cat.users.length ∧
    ((findOrCreateUserWithOAuth mig fuel now cat user provider oauthID).1.users.filter
        (fun u => u.email == user.email)).length =
      (cat.users.filter (fun u => u.email == user.email)).length ∧
    (findOrCreateUserWithOAuth mig fuel now cat user provider oauthID).1.tenants =
      cat.tenants := by
  have hsupp : supportedProvider provider = true := by
    rcases hp with rfl | rfl | rfl <;> rfl
  have hres : findOrCreateUserWithOAuth mig fuel now cat user provider oauthID =
      ({ cat with users := (updateUserRow ex.id
          (fun u => setProviderField provider oauthID { u with lastLoginAt := some now })
          cat.users) },
       .ok (setProviderField provider oauthID { ex with lastLoginAt := some now })) := by
    unfold findOrCreateUserWithOAuth
    rw [hsupp, hid]
    simp only [Bool.true_eq_false, if_false]
    rw [if_pos hemail, hex]
  refine ⟨by rw [hres], by rw [hres], ?_, ?_, by rw [hres]⟩
  · rw [hres]
    exact updateUserRow_length ex.id _ cat.users
  · rw [hres]
    refine updateUserRow_filter_length ex.id _ cat.users _ ?_
    intro u
    simp [setProviderField_email]

/-- C8 witness: a Google callback with a new external id and the email of the
stored local account links rather than duplicates. -/
theorem c8_oauth_links_by_email_witness :
    catWithLocalUser.users.find? (fun u => u.email == (mkUser "a@example.com").email) =
      some { mkUser "a@example.com" with id := 1, passwordHash := "hash_a" } ∧
    (findOrCreateUserWithOAuth (fun _ => true) 5 99 catWithLocalUser
      (mkUser "a@example.com") "google" "gid_123").1.users.length =
      catWithLocalUser.users.length :=
  ⟨by decide,
   (c8_oauth_links_by_email (fun _ => true) 5 99 catWithLocalUser
      (mkUser "a@example.com") "google" "gid_123"
      { mkUser "a@example.com" with id := 1, passwordHash := "hash_a" }
      (Or.inl rfl) (by decide) (by decide) (by decide)).2.2.1⟩

/-- In a state where every candidate schema is taken, the collision loop never
produces a result, whatever the fuel. -/
theorem slugLoop_none (taken : String → Bool) (base : String)
    (h : ∀ j, taken (slugCandidate base j) = true) :
    ∀ fuel k, slugLoop taken base fuel k = none := by
  intro fuel
  induction fuel with
  | zero => intro k; rfl
  | succ n ih =>
    intro k
    unfold slugLoop
    rw [h k]
    simpa using ih (k + 1)

/-- When the first free candidate has index k and there is enough fuel, the
collision loop returns exactly that candidate. -/
theorem slugLoop_finds (taken : String → Bool) (base : String) :
    ∀ fuel i k, i ≤ k → k < i + fuel →
      (∀ j, i ≤ j → j < k → taken (slugCandidate base j) = true) →
      taken (slugCandidate base k) = false →
      slugLoop taken base fuel i = some (slugCandidate base k) := by
  intro fuel
  induction fuel with
  | zero =>
    intro i k h1 h2 h3 h4
    omega
  | succ n ih =>
    intro i k h1 h2 h3 h4
    unfold slugLoop
    by_cases hik : i = k
    · subst hik
      rw [h4]
      simp
    · have hlt : i < k := lt_of_le_of_ne h1 hik
      rw [h3 i le_rfl hlt]
      simpa using ih (i + 1) k (by omega) (by omega) (fun j hj1 hj2 => h3 j (by omega) hj2) h4

/-- C9 counterexample: the slug collision loop has no maximum attempt count — in
the state where every candidate schema is taken, generateTenantSchema yields
nothing however much fuel it is given, so no bound exists after which slug
generation is guaranteed to have terminated with a result. -/
theorem c9_counterexample :
    (∀ fuel : Nat, generateTenantSchema (fun _ => true) fuel "owner@acme.test" = none) ∧
    ¬ ∃ bound : Nat, ∀ taken : String → Bool, ∀ email : String,
        (generateTenantSchema taken bound email).isSome = true := by
  constructor
  · intro fuel
    exact slugLoop_none (fun _ => true) _ (fun _ => rfl) fuel 0
  · rintro ⟨bound, h⟩
    have h2 := h (fun _ => true) "owner@acme.test"
    rw [generateTenantSchema, slugLoop_none (fun _ => true) _ (fun _ => rfl) bound 0] at h2
    simp at h2

/-- C9 (amended): the collision loop of generateTenantSchema is unbounded in the
source (no maximum attempt count); it terminates exactly when some candidate
slug is free: when candidate k is the first free one, any fuel beyond k returns
it, and in a state where every candidate is taken the loop yields nothing for
every amount of fuel — it never terminates. -/
theorem c9_slug_loop_behaviour (taken : String → Bool) (email : String) :
    (∀ k, (∀ j, j < k → taken (slugCandidate (baseSlug email) j) = true) →
      taken (slugCandidate (baseSlug email) k) = false →
      ∀ fuel, k < fuel →
        generateTenantSchema taken fuel email = some (slugCandidate (baseSlug email) k)) ∧
    ((∀ j, taken (slugCandidate (baseSlug email) j) = true) →
      ∀ fuel, generateTenantSchema taken fuel email = none) := by
  constructor
  · intro k hbelow hfree fuel hlt
    exact slugLoop_finds taken (baseSlug email) fuel 0 k (Nat.zero_le k) (by omega)
      (fun j _ hj => hbelow j hj) hfree
  · intro hall fuel
    exact slugLoop_none taken (baseSlug email) hall fuel 0

/-- C9 witness: with only the base slug owner taken, two units of fuel suffice to
terminate on the suffixed candidate owner_1. -/
theorem c9_slug_loop_behaviour_witness :
    ((fun s => s == "owner") (slugCandidate (baseSlug "owner@x.test") 1) = false) ∧
    generateTenantSchema (fun s => s == "owner") 2 "owner@x.test" =
      some (slugCandidate (baseSlug "owner@x.test") 1) :=
  ⟨by decide,
   (c9_slug_loop_behaviour (fun s => s == "owner") "owner@x.test").1 1
      (by decide) (by decide) 2 (by decide)⟩

/-- C10: login makes a deactivated account distinguishable from bad credentials:
an unknown email answers 401 with body "invalid credentials", an existing but
deactivated account answers 401 with body "account is disabled" (before the
password is even checked), a wrong password on an active account answers 401
with body "invalid credentials", and the two bodies differ — an exception to the
indistinguishability promised for credential failures. -/
theorem c10_disabled_account_distinguishable (verify : String → String → Bool)
    (now : Nat) (cat : Catalog) (email password : String) :
    (cat.users.find? (fun u => u.email == email) = none →
      (login verify now cat email password).2 = .failure 401 "invalid credentials") ∧
    (∀ u, cat.users.find? (fun u2 => u2.email == email) = some u → u.active = false →
      (login verify now cat email password).2 = .failure 401 "account is disabled") ∧
    (∀ u, cat.users.find? (fun u2 => u2.email == email) = some u → u.active = true →
      verify u.passwordHash password = false →
      (login verify now cat email password).2 = .failure 401 "invalid credentials") ∧
    ("account is disabled" : String) ≠ "invalid credentials" := by
  refine ⟨?_, ?_, ?_, by decide⟩
  · intro h
    unfold login
    rw [h]
  · intro u hu hina
    unfold login
    rw [hu]
    simp [hina]
  · intro u hu hact hv
    unfold login
    rw [hu]
    simp [hact, hv]

/-- C10 witness: logging into the deactivated account, even with its correct
password, answers "account is disabled" rather than "invalid credentials". -/
theorem c10_disabled_account_distinguishable_witness :
    catWithDisabledUser.users.find? (fun u2 => u2.email == "d@example.com") =
      some { mkUser "d@example.com" with id := 1, passwordHash := "pw_d", active := false } ∧
    (login (fun h p => h == p) 5 catWithDisabledUser "d@example.com" "pw_d").2 =
      .failure 401 "account is disabled" :=
  ⟨by decide,
   (c10_disabled_account_distinguishable (fun h p => h == p) 5 catWithDisabledUser
      "d@example.com" "pw_d").2.1
      { mkUser "d@example.com" with id := 1, passwordHash := "pw_d", active := false }
      (by decide) rfl⟩

end Awning
